import Mathlib

/-!
Shallow embedding of the `ViewTransformer` component
(react-native-view-transformer, `src/unnamed/part_000`, whose logic agrees
with `src/library/transform/ViewTransformer.js` on everything studied here).

Numbers are modelled by `ℚ` (JavaScript's numeric expressions here are plain
field arithmetic; `ℚ`'s total division `x / 0 = 0` is noted wherever a
division by zero is at stake).  The component's `this.state` is the `State`
structure, `this.props` the `Props` structure, and every handler becomes a
function `Props → State → ... → State` (plus an explicit record of the side
effects the handler triggers, for handlers whose interesting behaviour is an
effect rather than a state change).

The module `./TransformUtils` is imported by the component but its file is
not part of this repository snapshot, so its five pure functions are
modelled from the specification's §4.1/§4.2 wording; each such definition
carries a doc comment starting with `Modelled from the spec:`.
-/

namespace ViewTransformer

/-- Axis-aligned rectangle `{left, top, right, bottom}` (spec §3). -/
structure Rect where
  left : ℚ
  top : ℚ
  right : ℚ
  bottom : ℚ
deriving DecidableEq

def Rect.width (r : Rect) : ℚ := r.right - r.left

def Rect.height (r : Rect) : ℚ := r.bottom - r.top

def Rect.centerX (r : Rect) : ℚ := (r.left + r.right) / 2

def Rect.centerY (r : Rect) : ℚ := (r.top + r.bottom) / 2

/-- Affine transform `{scale, translateX, translateY}` with an optional
pivot (defaulting to the origin), as constructed throughout the component
via `new Transform(scale, tx, ty, {x: pivotX, y: pivotY})`. -/
structure Transform where
  scale : ℚ
  translateX : ℚ
  translateY : ℚ
  pivotX : ℚ := 0
  pivotY : ℚ := 0
deriving DecidableEq

/-- Modelled from the spec: `TransformUtils.transformedRect` is missing from
the snapshot.  Spec §4.1: the transform's translate is applied first in
rect-local space, then the scale is applied about the pivot point (the pivot
is a fixed point under scaling), on all four edges. -/
def transformedRect (r : Rect) (t : Transform) : Rect :=
  { left := t.pivotX + t.scale * (r.left + t.translateX - t.pivotX)
    top := t.pivotY + t.scale * (r.top + t.translateY - t.pivotY)
    right := t.pivotX + t.scale * (r.right + t.translateX - t.pivotX)
    bottom := t.pivotY + t.scale * (r.bottom + t.translateY - t.pivotY) }

/-- Modelled from the spec: `TransformUtils.getTransform` is missing from the
snapshot.  Spec §4.2: the unique transform mapping `fromRect` onto `toRect`
(assuming the aspect ratio is preserved); the scale is derived from the
width ratio only and the translate is solved from the scaled centers. -/
def getTransform (fromRect toRect : Rect) : Transform :=
  let scale := toRect.width / fromRect.width
  { scale := scale
    translateX := toRect.centerX / scale - fromRect.centerX
    translateY := toRect.centerY / scale - fromRect.centerY }

/-- Modelled from the spec: `TransformUtils.fitCenterRect` is missing from
the snapshot.  Spec §4.2: the largest rect of the given aspect ratio
(width / height) centered inside the container. -/
def fitCenterRect (aspectRatio : ℚ) (container : Rect) : Rect :=
  let w := if aspectRatio > container.width / container.height
    then container.width else container.height * aspectRatio
  let h := if aspectRatio > container.width / container.height
    then container.width / aspectRatio else container.height
  { left := container.centerX - w / 2
    top := container.centerY - h / 2
    right := container.centerX + w / 2
    bottom := container.centerY + h / 2 }

/-- Modelled from the spec: `TransformUtils.alignedRect` is missing from the
snapshot.  Spec §4.2: on each axis, if `r` is smaller than the viewport it
is centered on that axis; if larger it is left as-is. -/
def alignedRect (r viewPort : Rect) : Rect :=
  { left := if r.width < viewPort.width then viewPort.centerX - r.width / 2 else r.left
    top := if r.height < viewPort.height then viewPort.centerY - r.height / 2 else r.top
    right := if r.width < viewPort.width then viewPort.centerX + r.width / 2 else r.right
    bottom := if r.height < viewPort.height then viewPort.centerY + r.height / 2 else r.bottom }

/-- The `{left, top, right, bottom}` record returned by
`availableTranslateSpace`. -/
structure TranslateSpace where
  left : ℚ
  top : ℚ
  right : ℚ
  bottom : ℚ
deriving DecidableEq

/-- Modelled from the spec: `TransformUtils.availableTranslateSpace` is
missing from the snapshot.  Spec §4.2: the signed remaining pixel distance
each edge of `contentRect` may still move before reaching the viewport's
corresponding edge (negative when already overscrolled past it); the signs
are fixed by the callers (`performFling` treats a positive `left` as room to
pan right, `applyResistance` treats a negative edge as overscrolled). -/
def availableTranslateSpace (contentRect viewPort : Rect) : TranslateSpace :=
  { left := viewPort.left - contentRect.left
    top := viewPort.top - contentRect.top
    right := contentRect.right - viewPort.right
    bottom := contentRect.bottom - viewPort.bottom }

/-- The component's props that the embedded logic reads, with the
`defaultProps` of `part_000` as field defaults.  Optional numeric props are
`Option ℚ` (absent = `undefined` in JS). -/
structure Props where
  maxOverScrollDistance : ℚ := 0
  enableScale : Bool := true
  enableTranslate : Bool := true
  enableTransform : Bool := true
  maxScale : ℚ := 1
  initialScale : ℚ := 10
  enableResistance : Bool := false
  enableLimits : Bool := false
  contentAspectRatio : Option ℚ := none
  svgWidth : Option ℚ := none
  svgHeight : Option ℚ := none
deriving DecidableEq

/-- The defaultProps object itself (all fields defaulted). -/
def defaultProps : Props := {}

def svgWidthVal (p : Props) : ℚ := p.svgWidth.getD 0

def svgHeightVal (p : Props) : ℚ := p.svgHeight.getD 0

/-- JS truthiness of `this.props.svgWidth && this.props.svgHeight` (the
constructor's `_svgRect` guard): both present and nonzero.  `_svgRect` null
means no overlay is configured. -/
def hasSvgRect (p : Props) : Bool := decide (svgWidthVal p ≠ 0) && decide (svgHeightVal p ≠ 0)

/-- `svgRect()`: `(0, 0, svgWidth, svgHeight)` (meaningful only when
`hasSvgRect`). -/
def svgRect (p : Props) : Rect :=
  { left := 0, top := 0, right := svgWidthVal p, bottom := svgHeightVal p }

/-- `this.props.contentAspectRatio` with JS `undefined` as 0. -/
def aspectVal (p : Props) : ℚ := p.contentAspectRatio.getD 0

/-- The component's `this.state` fields the embedded logic touches. -/
structure State where
  scale : ℚ
  translateX : ℚ
  translateY : ℚ
  svgScale : ℚ
  svgTranslateX : ℚ
  svgTranslateY : ℚ
  svgDrawingScale : ℚ
  width : ℚ
  height : ℚ
  pageX : ℚ
  pageY : ℚ
  isAnimating : Bool
deriving DecidableEq

/-- The state installed by the constructor of `part_000`. -/
def initialState (p : Props) : State :=
  { scale := p.initialScale
    translateX := 375 / 2 / 5
    translateY := 0
    svgScale := 1
    svgTranslateX := 0
    svgTranslateY := 0
    svgDrawingScale := 0
    width := 0
    height := 0
    pageX := 0
    pageY := 0
    isAnimating := false }

def viewPortRect (st : State) : Rect :=
  { left := 0, top := 0, right := st.width, bottom := st.height }

def currentTransform (st : State) : Transform :=
  { scale := st.scale, translateX := st.translateX, translateY := st.translateY }

/-- `contentRect()`: the viewport, aspect-fitted when
`contentAspectRatio && contentAspectRatio > 0` (JS truthiness of a positive
number is equivalent to positivity). -/
def contentRect (p : Props) (st : State) : Rect :=
  if 0 < aspectVal p then fitCenterRect (aspectVal p) (viewPortRect st) else viewPortRect st

/-- `transformedContentRect()`: the viewport under the current transform,
aspect-fitted again. -/
def transformedContentRect (p : Props) (st : State) : Rect :=
  let r := transformedRect (viewPortRect st) (currentTransform st)
  if 0 < aspectVal p then fitCenterRect (aspectVal p) r else r

/-- A partial transform as passed to `this.setState(transform, ...)` by
`updateTransform`: any subset of `{scale, translateX, translateY}`. -/
structure TransformPatch where
  scale : Option ℚ := none
  translateX : Option ℚ := none
  translateY : Option ℚ := none
deriving DecidableEq

def applyPatch (st : State) (t : TransformPatch) : State :=
  { st with
    scale := t.scale.getD st.scale
    translateX := t.translateX.getD st.translateX
    translateY := t.translateY.getD st.translateY }

/-- `updateSvgTransform`: early-return when no overlay is configured,
otherwise recompute the overlay transform from
`getTransform(svgRect, contentRect)` and the drawing scale from
`transformedContentRect().width() / svgWidth`. -/
def updateSvgTransform (p : Props) (st : State) : State :=
  if hasSvgRect p then
    let newSvgTransform := getTransform (svgRect p) (contentRect p st)
    { st with
      svgScale := newSvgTransform.scale
      svgTranslateX := newSvgTransform.translateX
      svgTranslateY := newSvgTransform.translateY
      svgDrawingScale := (transformedContentRect p st).width / svgWidthVal p }
  else st

/-- `updateTransform`: install the partial transform, then (in the setState
callback) recompute the overlay transform. -/
def updateTransform (p : Props) (st : State) (t : TransformPatch) : State :=
  updateSvgTransform p (applyPatch st t)

/-- `forceUpdateTransform`: kept for compatibility, delegates to
`updateTransform`. -/
def forceUpdateTransform (p : Props) (st : State) (t : TransformPatch) : State :=
  updateTransform p st t

/-- A 2D point `{x, y}`. -/
structure Point where
  x : ℚ
  y : ℚ
deriving DecidableEq

/-- `clipRectCoordinates()`: the painted area relative to the image. -/
def clipRectCoordinates (p : Props) (st : State) : Rect :=
  let content := contentRect p st
  let transform := currentTransform st
  let transformed := transformedContentRect p st
  let viewPort := viewPortRect st
  let centerX := 1 / 2 - transform.translateX / content.width
  let centerY := 1 / 2 - transform.translateY / content.height
  let width := viewPort.width / transformed.width
  let height := viewPort.height / transformed.height
  { left := max 0 (centerX - width / 2)
    top := max 0 (centerY - height / 2)
    right := min 1 (centerX + width / 2)
    bottom := min 1 (centerY + height / 2) }

/-- `coordinateToDrawingPoint`: scale a normalized coordinate up to overlay
pixels; identity when no overlay is configured. -/
def coordinateToDrawingPoint (p : Props) (coord : Point) : Point :=
  if hasSvgRect p then { x := coord.x * svgWidthVal p, y := coord.y * svgHeightVal p }
  else coord

/-- `drawingPointToCoordinate`: divide an overlay point down to a normalized
coordinate; identity when no overlay is configured. -/
def drawingPointToCoordinate (p : Props) (drawingPoint : Point) : Point :=
  if hasSvgRect p then
    { x := drawingPoint.x / svgWidthVal p, y := drawingPoint.y / svgHeightVal p }
  else drawingPoint

/-- `drawingPointToScreenPoint`: affine map with the transformed content
rect's corner as origin and `svgDrawingScale` as uniform scale. -/
def drawingPointToScreenPoint (p : Props) (st : State) (drawingPoint : Point) : Point :=
  let tr := transformedContentRect p st
  { x := tr.left + drawingPoint.x * st.svgDrawingScale
    y := tr.top + drawingPoint.y * st.svgDrawingScale }

/-- `screenPointToDrawingPoint`: the inverse affine map, dividing by
`svgDrawingScale` with no zero guard. -/
def screenPointToDrawingPoint (p : Props) (st : State) (screenPoint : Point) : Point :=
  let tr := transformedContentRect p st
  { x := (screenPoint.x - tr.left) / st.svgDrawingScale
    y := (screenPoint.y - tr.top) / st.svgDrawingScale }

/-- `coordinateToScreenPoint = drawingPointToScreenPoint ∘
coordinateToDrawingPoint`. -/
def coordinateToScreenPoint (p : Props) (st : State) (coordinate : Point) : Point :=
  drawingPointToScreenPoint p st (coordinateToDrawingPoint p coordinate)

/-- `screenPointToCoordinate`: in `part_000` this class property is assigned
twice; the later assignment (the direct formula dividing by the transformed
rect's width/height) overwrites the earlier composite one, and is also the
only definition present in `ViewTransformer.js`. -/
def screenPointToCoordinate (p : Props) (st : State) (screenPoint : Point) : Point :=
  let tr := transformedContentRect p st
  { x := (screenPoint.x - tr.left) / tr.width
    y := (screenPoint.y - tr.top) / tr.height }

/-- `drawingScalarToScreenScalar`: multiplies by the long side of the
transformed content rect. -/
def drawingScalarToScreenScalar (p : Props) (st : State) (drawingScalar : ℚ) : ℚ :=
  let tr := transformedContentRect p st
  drawingScalar * max tr.width tr.height

/-- `screenScalarToDrawingScalar`: divides by `svgDrawingScale` with no
zero guard (the source also binds `this.contentRect()` and the props, unused). -/
def screenScalarToDrawingScalar (_p : Props) (st : State) (screenScalar : ℚ) : ℚ :=
  screenScalar / st.svgDrawingScale

/-- The fields of the gesture-responder snapshot consumed by the handlers.
`pinch`/`previousPinch` are `Option ℚ` because the JS code tests their
truthiness (absent or zero = falsy). -/
structure GestureState where
  moveX : ℚ := 0
  moveY : ℚ := 0
  previousMoveX : ℚ := 0
  previousMoveY : ℚ := 0
  pinch : Option ℚ := none
  previousPinch : Option ℚ := none
  vx : ℚ := 0
  vy : ℚ := 0
  dx : ℚ := 0
  dy : ℚ := 0
  x0 : ℚ := 0
  y0 : ℚ := 0
  doubleTapUp : Bool := false
deriving DecidableEq

/-- JS truthiness of an optional number: present and nonzero. -/
def truthyQ (o : Option ℚ) : Bool := decide (o.getD 0 ≠ 0)

/-- `applyResistance(dx, dy)`: divide a delta component by 3 when the
corresponding edge of `availableTranslateSpace` is already negative. -/
def applyResistance (p : Props) (st : State) (dx dy : ℚ) : ℚ × ℚ :=
  let a := availableTranslateSpace (transformedContentRect p st) (viewPortRect st)
  (if (dx > 0 ∧ a.left < 0) ∨ (dx < 0 ∧ a.right < 0) then dx / 3 else dx,
   if (dy > 0 ∧ a.top < 0) ∨ (dy < 0 ∧ a.bottom < 0) then dy / 3 else dy)

/-- `applyLimits(dx, dy)`: hard-clamp the delta against the viewport, with
distinct branches for content smaller/larger than the viewport per axis. -/
def applyLimits (p : Props) (st : State) (dx dy : ℚ) : ℚ × ℚ :=
  let a := availableTranslateSpace (transformedContentRect p st) (viewPortRect st)
  let tcr := transformedContentRect p st
  let vp := viewPortRect st
  let dx1 :=
    if tcr.width < vp.width then
      if dx < 0 ∧ tcr.left + dx < vp.left then a.left
      else if dx > 0 ∧ tcr.right + dx > vp.right then -a.right
      else dx
    else
      if dx < 0 ∧ tcr.right + dx < vp.right then -a.right
      else if dx > 0 ∧ tcr.left + dx > vp.left then a.left
      else dx
  let dy1 :=
    if tcr.height < vp.height then
      if dy > 0 ∧ tcr.bottom + dy > vp.bottom then -a.bottom
      else if dy < 0 ∧ tcr.top + dy < vp.top then a.top
      else dy
    else
      if dy > 0 ∧ tcr.top + dy > vp.top then a.top
      else if dy < 0 ∧ tcr.bottom + dy < vp.bottom then -a.bottom
      else dy
  (dx1, dy1)

/-- The raw per-move delta `(moveX - previousMoveX, moveY - previousMoveY)`. -/
def rawDelta (g : GestureState) : ℚ × ℚ :=
  (g.moveX - g.previousMoveX, g.moveY - g.previousMoveY)

/-- The limit/resistance stage of `onResponderMove`, exactly as the code
orders it: limits when enabled, else resistance when enabled, else
unchanged. -/
def limitDelta (p : Props) (st : State) (d : ℚ × ℚ) : ℚ × ℚ :=
  if p.enableLimits then applyLimits p st d.1 d.2
  else if p.enableResistance then applyResistance p st d.1 d.2
  else d

/-- `Math.abs` on rationals (spelled out so that it evaluates in the
kernel). -/
def absQ (x : ℚ) : ℚ := if x < 0 then -x else x

/-- The axis-lock heuristic of the pure-pan branch. -/
def axisLock (d : ℚ × ℚ) : ℚ × ℚ :=
  if absQ d.1 > 2 * absQ d.2 then (d.1, 0)
  else if absQ d.2 > 2 * absQ d.1 then (0, d.2)
  else d

/-- The truthiness test guarding the pinch branch:
`gestureState.previousPinch && gestureState.pinch && this.props.enableScale`. -/
def isPinching (p : Props) (g : GestureState) : Bool :=
  truthyQ g.previousPinch && truthyQ g.pinch && p.enableScale

/-- Which side effects a move-event run triggered. -/
structure MoveEffects where
  cancelledAnimation : Bool
  updatedTransform : Bool
deriving DecidableEq

/-- `onResponderMove` of `part_000`.  `handledMove` is the truthiness of
`this.props.onTransformGestureMove && this.props.onTransformGestureMove(...)`
(false also covers an absent hook).  The function returns the new state and
the effects record; note that `cancelAnimation()` is invoked first thing,
before the limit/resistance stage and before the hook check. -/
def onResponderMove (p : Props) (st : State) (g : GestureState) (handledMove : Bool) :
    State × MoveEffects :=
  let d0 := rawDelta g
  let d1 := limitDelta p st d0
  if handledMove then (st, { cancelledAnimation := true, updatedTransform := false })
  else
    let d2 := if p.enableTranslate then d1 else ((0 : ℚ), (0 : ℚ))
    if isPinching p g then
      let scaleBy := g.pinch.getD 0 / g.previousPinch.getD 0
      let pivotX := g.moveX - st.pageX
      let pivotY := g.moveY - st.pageY
      let rect := transformedRect (transformedRect (contentRect p st) (currentTransform st))
        { scale := scaleBy, translateX := d2.1, translateY := d2.2,
          pivotX := pivotX, pivotY := pivotY }
      let t := getTransform (contentRect p st) rect
      (updateTransform p st
        { scale := some t.scale, translateX := some t.translateX,
          translateY := some t.translateY },
       { cancelledAnimation := true, updatedTransform := true })
    else
      let d3 := axisLock d2
      (updateTransform p st
        { translateX := some (st.translateX + d3.1 / st.scale),
          translateY := some (st.translateY + d3.2 / st.scale) },
       { cancelledAnimation := true, updatedTransform := true })

/-- `performDoubleTapUp`'s zoom factor: toggle between `1/curScale` and
`maxScale/curScale` around the midpoint `(1 + maxScale)/2`. -/
def doubleTapScaleBy (p : Props) (st : State) : ℚ :=
  if st.scale > (1 + p.maxScale) / 2 then 1 / st.scale else p.maxScale / st.scale

/-- The target rect `performDoubleTapUp` hands to `animate`: zoom about the
tap pivot, re-center into the viewport center, align to viewport bounds. -/
def performDoubleTapUpRect (p : Props) (st : State) (pivotX pivotY : ℚ) : Rect :=
  let rect := transformedRect (transformedContentRect p st)
    { scale := doubleTapScaleBy p st, translateX := 0, translateY := 0,
      pivotX := pivotX, pivotY := pivotY }
  let rect2 := transformedRect rect
    { scale := 1, translateX := (viewPortRect st).centerX - pivotX,
      translateY := (viewPortRect st).centerY - pivotY }
  alignedRect rect2 (viewPortRect st)

/-- Which side effects a release-event run triggered. -/
structure ReleaseEffects where
  startedFling : Bool
  startedDoubleTapZoom : Bool
  startedBounce : Bool
deriving DecidableEq

/-- `onResponderRelease` of `part_000`.  `handledRelease` is the truthiness
of the `onTransformGestureReleased` hook's result.  `performDoubleTapUp`
itself only sets `isAnimating` synchronously (the animation then ticks
asynchronously through `updateTransform`); fling and bounce are likewise
asynchronous, so they show up only as effects here. -/
def onResponderRelease (p : Props) (st : State) (g : GestureState) (handledRelease : Bool) :
    State × ReleaseEffects :=
  if handledRelease then
    (st, { startedFling := false, startedDoubleTapZoom := false, startedBounce := false })
  else if g.doubleTapUp then
    if !p.enableScale then
      (st, { startedFling := false, startedDoubleTapZoom := false, startedBounce := true })
    else
      ({ st with isAnimating := true },
       { startedFling := false, startedDoubleTapZoom := true, startedBounce := false })
  else if p.enableTranslate then
    (st, { startedFling := true, startedDoubleTapZoom := false, startedBounce := false })
  else
    (st, { startedFling := false, startedDoubleTapZoom := false, startedBounce := true })

/-- The states a component instance can be in after any interleaving of the
operations that write `this.state`: construction, `updateTransform` (which
every transform mutation funnels through, including animation and scroller
ticks), the layout callback, the asynchronous page-offset measurement, the
`isAnimating` flips, and the two gesture handlers. -/
inductive Reach (p : Props) : State → Prop where
  | init : Reach p (initialState p)
  | update (st : State) (t : TransformPatch) : Reach p st → Reach p (updateTransform p st t)
  | layout (st : State) (w h : ℚ) : Reach p st →
      Reach p (updateSvgTransform p { st with width := w, height := h })
  | measure (st : State) (px py : ℚ) : Reach p st →
      Reach p { st with pageX := px, pageY := py }
  | anim (st : State) (b : Bool) : Reach p st → Reach p { st with isAnimating := b }
  | move (st : State) (g : GestureState) (handled : Bool) : Reach p st →
      Reach p (onResponderMove p st g handled).1
  | release (st : State) (g : GestureState) (handled : Bool) : Reach p st →
      Reach p (onResponderRelease p st g handled).1

/-- The pure-pan delta pipeline in the order the specification states it
(axis lock first, then limits/resistance), kept side by side with the
code's actual order (`limitDelta` before `axisLock` inside
`onResponderMove`) so the two can be compared. -/
def claimedPanDelta (p : Props) (st : State) (g : GestureState) : ℚ × ℚ :=
  limitDelta p st (axisLock (rawDelta g))

/-- A post-layout state with the given viewport size, content transform and
drawing scale; the remaining fields keep their constructor values. -/
def testState (w h scale tx ty ds : ℚ) : State :=
  { scale := scale
    translateX := tx
    translateY := ty
    svgScale := 1
    svgTranslateX := 0
    svgTranslateY := 0
    svgDrawingScale := ds
    width := w
    height := h
    pageX := 0
    pageY := 0
    isAnimating := false }

/-- Props enabling the resistance path (all else defaulted). -/
def resistanceProps : Props := { enableResistance := true }

/-- Props with `maxScale = 3`, the concrete double-tap scenario of the
specification. -/
def zoomProps : Props := { maxScale := 3 }

/-- Props configuring a 2000 × 1000 overlay. -/
def wideOverlayProps : Props := { svgWidth := some 2000, svgHeight := some 1000 }

/-- Props configuring a 2000 × 3000 overlay. -/
def tallOverlayProps : Props := { svgWidth := some 2000, svgHeight := some 3000 }

/-- A 100 × 100 viewport at the identity content transform. -/
def plainViewState : State := testState 100 100 1 0 0 0

/-- A 100 × 100 viewport panned 10px right at scale 1, overscrolled on the
left edge (`availableTranslateSpace.left < 0`). -/
def overscrolledState : State := testState 100 100 1 10 0 0

/-- A 100 × 100 viewport zoomed to scale 3. -/
def zoomedViewState : State := testState 100 100 3 0 0 0

/-- A 100 × 100 viewport panned far offscreen (`translateX = -200`). -/
def offscreenPanState : State := testState 100 100 1 (-200) 0 0

/-- A 100 × 100 viewport at the identity transform whose drawing scale is
consistent with a 2000px-wide overlay (`100 / 2000`). -/
def squareViewState : State := testState 100 100 1 0 0 (1 / 20)

/-- A 100 × 200 viewport at the identity transform whose drawing scale is
consistent with a 2000px-wide overlay (`100 / 2000`). -/
def tallViewState : State := testState 100 200 1 0 0 (1 / 20)

/-- A 300 × 450 viewport at the identity transform whose drawing scale is
consistent with a 2000px-wide overlay (`300 / 2000`). -/
def portraitViewState : State := testState 300 450 1 0 0 (3 / 20)

/-- A near-horizontal pan gesture: delta `(10, 4)` from the origin. -/
def diagonalPanGesture : GestureState := { moveX := 10, moveY := 4 }

/-! ## Helper lemmas -/

theorem transformedRect_width (r : Rect) (t : Transform) :
    (transformedRect r t).width = t.scale * r.width := by
  simp only [transformedRect, Rect.width]
  ring

theorem transformedRect_height (r : Rect) (t : Transform) :
    (transformedRect r t).height = t.scale * r.height := by
  simp only [transformedRect, Rect.height]
  ring

theorem alignedRect_width (r v : Rect) : (alignedRect r v).width = r.width := by
  simp only [alignedRect, Rect.width]
  split_ifs with h
  · ring
  · rfl

theorem fitCenterRect_width (ar : ℚ) (c : Rect) :
    (fitCenterRect ar c).width = if ar > c.width / c.height then c.width else c.height * ar := by
  unfold fitCenterRect
  simp only [Rect.width, Rect.height, Rect.centerX]
  split_ifs with h
  · ring
  · ring

/-- Scaling a rect scales the width of its aspect-fitted rect, `scale ≠ 0`
(the fit branch condition is invariant because the rect's aspect ratio is
preserved). -/
theorem fitCenterRect_transformedRect_width (ar : ℚ) (r : Rect) (t : Transform)
    (hs : t.scale ≠ 0) :
    (fitCenterRect ar (transformedRect r t)).width = t.scale * (fitCenterRect ar r).width := by
  rw [fitCenterRect_width, fitCenterRect_width, transformedRect_width, transformedRect_height,
    mul_div_mul_left r.width r.height hs]
  split_ifs with h
  · rfl
  · ring

/-- The transformed content rect's width is the current scale times the
content rect's width (scale ≠ 0). -/
theorem transformedContentRect_width (p : Props) (st : State) (hs : st.scale ≠ 0) :
    (transformedContentRect p st).width = st.scale * (contentRect p st).width := by
  unfold transformedContentRect contentRect
  split_ifs with h
  · exact fitCenterRect_transformedRect_width (aspectVal p) (viewPortRect st)
      (currentTransform st) hs
  · exact transformedRect_width (viewPortRect st) (currentTransform st)

theorem updateSvgTransform_no_overlay (p : Props) (h : hasSvgRect p = false) (st : State) :
    updateSvgTransform p st = st := by
  simp [updateSvgTransform, h]

theorem updateTransform_svgDrawingScale_no_overlay (p : Props) (h : hasSvgRect p = false)
    (st : State) (t : TransformPatch) :
    (updateTransform p st t).svgDrawingScale = st.svgDrawingScale := by
  rw [updateTransform, updateSvgTransform_no_overlay p h]
  rfl

theorem onResponderMove_svgDrawingScale (p : Props) (h : hasSvgRect p = false)
    (st : State) (g : GestureState) (handled : Bool) :
    (onResponderMove p st g handled).1.svgDrawingScale = st.svgDrawingScale := by
  simp only [onResponderMove]
  split
  · rfl
  · split
    · exact updateTransform_svgDrawingScale_no_overlay p h st _
    · exact updateTransform_svgDrawingScale_no_overlay p h st _

theorem onResponderRelease_svgDrawingScale (p : Props)
    (st : State) (g : GestureState) (handled : Bool) :
    (onResponderRelease p st g handled).1.svgDrawingScale = st.svgDrawingScale := by
  unfold onResponderRelease
  split
  · rfl
  · split
    · split
      · rfl
      · rfl
    · split
      · rfl
      · rfl

theorem reach_svgDrawingScale_zero (p : Props) (st : State) (h : hasSvgRect p = false)
    (hr : Reach p st) : st.svgDrawingScale = 0 := by
  induction hr with
  | init => rfl
  | update st' t _ ih => rw [updateTransform_svgDrawingScale_no_overlay p h]; exact ih
  | layout st' w hgt _ ih => rw [updateSvgTransform_no_overlay p h]; exact ih
  | measure st' px py _ ih => exact ih
  | anim st' b _ ih => exact ih
  | move st' g hd _ ih => rw [onResponderMove_svgDrawingScale p h]; exact ih
  | release st' g hd _ ih => rw [onResponderRelease_svgDrawingScale]; exact ih

/-! ## Claims -/

/-- Claim C1: after every `updateTransform` (and its alias
`forceUpdateTransform`), whenever an overlay is configured, the overlay
transform equals `getTransform(svgRect, contentRect)` and the drawing scale
equals `transformedContentRect().width() / svgWidth`, both recomputed at the
post-update state — the overlay state never reflects a previous content
transform. -/
theorem updateTransform_syncs_overlay (p : Props) (st : State) (t : TransformPatch)
    (h : hasSvgRect p = true) :
    (updateTransform p st t).svgScale
        = (getTransform (svgRect p) (contentRect p (updateTransform p st t))).scale ∧
    (updateTransform p st t).svgTranslateX
        = (getTransform (svgRect p) (contentRect p (updateTransform p st t))).translateX ∧
    (updateTransform p st t).svgTranslateY
        = (getTransform (svgRect p) (contentRect p (updateTransform p st t))).translateY ∧
    (updateTransform p st t).svgDrawingScale
        = (transformedContentRect p (updateTransform p st t)).width / svgWidthVal p ∧
    forceUpdateTransform p st t = updateTransform p st t := by
  refine ⟨?_, ?_, ?_, ?_, rfl⟩ <;>
    simp [updateTransform, updateSvgTransform, h, contentRect, transformedContentRect,
      viewPortRect, currentTransform, applyPatch]

theorem updateTransform_syncs_overlay_witness :
    hasSvgRect wideOverlayProps = true ∧
    (updateTransform wideOverlayProps (initialState wideOverlayProps)
        { scale := some 2 }).svgDrawingScale
      = (transformedContentRect wideOverlayProps
          (updateTransform wideOverlayProps (initialState wideOverlayProps)
            { scale := some 2 })).width / svgWidthVal wideOverlayProps :=
  ⟨by decide, (updateTransform_syncs_overlay wideOverlayProps
    (initialState wideOverlayProps) { scale := some 2 } (by decide)).2.2.2.1⟩

/-- Claim C2, counterexample: on a move event whose interception hook
returns truthy, the claim asserts that no animation cancellation occurred;
but `onResponderMove` invokes `cancelAnimation()` first thing, before the
hook check, so the cancellation effect fires even though the hook handled
the event. -/
theorem hooked_move_still_cancels_animation :
    (onResponderMove defaultProps (initialState defaultProps)
        diagonalPanGesture true).2.cancelledAnimation = true ∧
    (onResponderMove defaultProps (initialState defaultProps)
        diagonalPanGesture true).1 = initialState defaultProps :=
  ⟨rfl, rfl⟩

/-- Claim C2 as amended: when the interception hook returns truthy, the
handler returns with the component state unchanged and without any
transform update, fling start, double-tap zoom or bounce; on release
events nothing at all happens before the hook check, but on move events
`cancelAnimation()` has already been invoked before the hook check, so
animation cancellation does occur for hook-handled moves. -/
theorem handled_gesture_short_circuits (p : Props) (st : State) (g : GestureState) :
    (onResponderMove p st g true).1 = st ∧
    (onResponderMove p st g true).2.updatedTransform = false ∧
    (onResponderMove p st g true).2.cancelledAnimation = true ∧
    (onResponderRelease p st g true).1 = st ∧
    (onResponderRelease p st g true).2
      = { startedFling := false, startedDoubleTapZoom := false, startedBounce := false } :=
  ⟨rfl, rfl, rfl, rfl, rfl⟩

/-- Claim C5: `applyResistance` divides `dx` by 3 exactly when the
`availableTranslateSpace` edge matching its direction (left for `dx > 0`,
right for `dx < 0`) is negative, likewise `dy` with the top/bottom edges,
and leaves any other axis unchanged. -/
theorem applyResistance_dampens_overscrolled_axes (p : Props) (st : State) (dx dy : ℚ) :
    applyResistance p st dx dy
      = (if (dx > 0 ∧ (availableTranslateSpace (transformedContentRect p st)
              (viewPortRect st)).left < 0)
            ∨ (dx < 0 ∧ (availableTranslateSpace (transformedContentRect p st)
              (viewPortRect st)).right < 0)
         then dx / 3 else dx,
         if (dy > 0 ∧ (availableTranslateSpace (transformedContentRect p st)
              (viewPortRect st)).top < 0)
            ∨ (dy < 0 ∧ (availableTranslateSpace (transformedContentRect p st)
              (viewPortRect st)).bottom < 0)
         then dy / 3 else dy) := rfl

/-- Claim C8, counterexample: the claim asserts every edge of
`clipRectCoordinates()` lies in `[0, 1]`, in particular `left ≤ 1`; but in
the reachable state panned to `translateX = -200` on a 100 × 100 viewport
the left edge is 2. -/
theorem clipRectCoordinates_left_exceeds_one :
    Reach defaultProps offscreenPanState ∧
    (clipRectCoordinates defaultProps offscreenPanState).left = 2 ∧
    ¬ (clipRectCoordinates defaultProps offscreenPanState).left ≤ 1 := by
  have hleft : (clipRectCoordinates defaultProps offscreenPanState).left = 2 := by
    norm_num [clipRectCoordinates, contentRect, transformedContentRect, viewPortRect,
      currentTransform, transformedRect, aspectVal, defaultProps, offscreenPanState, testState,
      Rect.width, Rect.height, max_def, min_def]
  refine ⟨?_, hleft, by rw [hleft]; norm_num⟩
  have h1 : Reach defaultProps (initialState defaultProps) := Reach.init
  have h2 := Reach.layout (initialState defaultProps) 100 100 h1
  have h3 := Reach.update _ { scale := some 1, translateX := some (-200), translateY := some 0 } h2
  have heq : updateTransform defaultProps
      (updateSvgTransform defaultProps
        { initialState defaultProps with width := 100, height := 100 })
      { scale := some 1, translateX := some (-200), translateY := some 0 }
      = offscreenPanState := by decide
  rwa [heq] at h3

/-- Claim C8 as amended: for every state, `clipRectCoordinates()` clamps
`left` and `top` from below at 0 and `right` and `bottom` from above at 1
(`0 ≤ left`, `0 ≤ top`, `right ≤ 1`, `bottom ≤ 1`); there is no clamp on
the other side of each edge, so `left`/`top` may exceed 1 and
`right`/`bottom` may be negative. -/
theorem clipRectCoordinates_one_sided_clamps (p : Props) (st : State) :
    0 ≤ (clipRectCoordinates p st).left ∧
    0 ≤ (clipRectCoordinates p st).top ∧
    (clipRectCoordinates p st).right ≤ 1 ∧
    (clipRectCoordinates p st).bottom ≤ 1 :=
  ⟨le_max_left 0 _, le_max_left 0 _, min_le_left 1 _, min_le_left 1 _⟩

/-- Claim C9: immediately after construction the content transform is not
the identity: `scale` is the `initialScale` prop (default 10),
`translateX` is `375 / 2 / 5 = 37.5` and `translateY` is 0. -/
theorem initialState_not_identity (p : Props) :
    (initialState p).scale = p.initialScale ∧
    (initialState p).translateX = 375 / 2 / 5 ∧
    (initialState p).translateX = 75 / 2 ∧
    (initialState p).translateY = 0 ∧
    defaultProps.initialScale = 10 ∧
    ¬ ((initialState p).scale = 1 ∧ (initialState p).translateX = 0
        ∧ (initialState p).translateY = 0) := by
  refine ⟨rfl, rfl, by norm_num [initialState], rfl, rfl, ?_⟩
  intro hid
  have hx : (initialState p).translateX = 0 := hid.2.1
  norm_num [initialState] at hx

/-- Claim C3: `performDoubleTapUp` picks `scaleBy = 1/curScale` when the
current scale exceeds the midpoint `(1 + maxScale)/2` and
`scaleBy = maxScale/curScale` otherwise, and the target rect it animates to
corresponds (through `getTransform` against the content rect, which is how
`animate` turns the final rect into a transform) to scale 1 in the first
case and `maxScale` in the second. -/
theorem performDoubleTapUp_toggles_scale (p : Props) (st : State) (pivotX pivotY : ℚ)
    (_hsc : p.enableScale = true) (hs : st.scale ≠ 0) (hw : (contentRect p st).width ≠ 0) :
    doubleTapScaleBy p st
      = (if st.scale > (1 + p.maxScale) / 2 then 1 / st.scale else p.maxScale / st.scale) ∧
    (getTransform (contentRect p st) (performDoubleTapUpRect p st pivotX pivotY)).scale
      = (if st.scale > (1 + p.maxScale) / 2 then 1 else p.maxScale) := by
  refine ⟨rfl, ?_⟩
  have hwidth : (performDoubleTapUpRect p st pivotX pivotY).width
      = doubleTapScaleBy p st * (st.scale * (contentRect p st).width) := by
    simp only [performDoubleTapUpRect, alignedRect_width, transformedRect_width,
      transformedContentRect_width p st hs]
    ring
  have hscale : (getTransform (contentRect p st)
      (performDoubleTapUpRect p st pivotX pivotY)).scale
      = (performDoubleTapUpRect p st pivotX pivotY).width / (contentRect p st).width := rfl
  rw [hscale, hwidth]
  unfold doubleTapScaleBy
  split_ifs with hmid
  · field_simp
  · field_simp

/-- Witness for C3, also checking the spec's concrete scenario: with
`maxScale = 3`, a double-tap at scale 1 targets scale 3 and one at
scale 3 targets scale 1. -/
theorem performDoubleTapUp_toggles_scale_witness :
    (getTransform (contentRect zoomProps plainViewState)
        (performDoubleTapUpRect zoomProps plainViewState 0 0)).scale = 3 ∧
    (getTransform (contentRect zoomProps zoomedViewState)
        (performDoubleTapUpRect zoomProps zoomedViewState 0 0)).scale = 1 := by
  constructor
  · rw [(performDoubleTapUp_toggles_scale zoomProps plainViewState 0 0 rfl
      (by norm_num [plainViewState, testState])
      (by norm_num [contentRect, aspectVal, zoomProps, viewPortRect, plainViewState,
        testState, Rect.width])).2]
    norm_num [plainViewState, testState, zoomProps]
  · rw [(performDoubleTapUp_toggles_scale zoomProps zoomedViewState 0 0 rfl
      (by norm_num [zoomedViewState, testState])
      (by norm_num [contentRect, aspectVal, zoomProps, viewPortRect, zoomedViewState,
        testState, Rect.width])).2]
    norm_num [zoomedViewState, testState, zoomProps]

/-- Claim C4, counterexample: the claim says the axis-lock heuristic runs
first and `applyLimits`/`applyResistance` only afterwards; the code applies
limits/resistance to the raw delta and runs the axis lock later, and the
two orders disagree.  With resistance enabled, the left edge overscrolled
and raw delta `(10, 4)`: the claimed order locks the axis first
(`10 > 2·4`, so `dy := 0`) and then dampens, yielding delta `(10/3, 0)` and
leaving `translateY` at 0, while the code dampens first (`dx := 10/3`,
`dy` stays 4), after which `10/3 > 2·4` fails, no axis is locked, and
`translateY` becomes 4. -/
theorem move_applies_limits_before_axis_lock_cex :
    (onResponderMove resistanceProps overscrolledState diagonalPanGesture false).1.translateY
      = 4 ∧
    claimedPanDelta resistanceProps overscrolledState diagonalPanGesture = (10 / 3, 0) ∧
    overscrolledState.translateY
        + (claimedPanDelta resistanceProps overscrolledState diagonalPanGesture).2
          / overscrolledState.scale = 0 := by
  refine ⟨?_, ?_, ?_⟩
  · norm_num [onResponderMove, isPinching, truthyQ, diagonalPanGesture, resistanceProps,
      updateTransform, updateSvgTransform, hasSvgRect, svgWidthVal, svgHeightVal, applyPatch,
      limitDelta, applyResistance, availableTranslateSpace, transformedContentRect,
      viewPortRect, currentTransform, transformedRect, aspectVal, overscrolledState, testState,
      rawDelta, axisLock, absQ, Rect.width, Rect.height]
  · norm_num [claimedPanDelta, axisLock, absQ, rawDelta, diagonalPanGesture, limitDelta,
      resistanceProps, applyResistance, availableTranslateSpace, transformedContentRect,
      viewPortRect, currentTransform, transformedRect, aspectVal, overscrolledState, testState,
      Rect.width, Rect.height, Prod.ext_iff]
  · norm_num [claimedPanDelta, axisLock, absQ, rawDelta, diagonalPanGesture, limitDelta,
      resistanceProps, applyResistance, availableTranslateSpace, transformedContentRect,
      viewPortRect, currentTransform, transformedRect, aspectVal, overscrolledState, testState,
      Rect.width, Rect.height]

/-- Claim C4 as amended: for every pure-pan move (no active pinch, translate
enabled, hook not intercepting) the raw delta is first clamped via
`applyLimits` when limits are enabled (else dampened via `applyResistance`
when resistance is enabled), and only then does the axis-lock heuristic run,
on the already-processed delta. -/
theorem move_applies_limits_before_axis_lock (p : Props) (st : State) (g : GestureState)
    (hp : isPinching p g = false) (ht : p.enableTranslate = true) :
    (onResponderMove p st g false).1
      = updateTransform p st
          { translateX := some (st.translateX
              + (axisLock (limitDelta p st (rawDelta g))).1 / st.scale),
            translateY := some (st.translateY
              + (axisLock (limitDelta p st (rawDelta g))).2 / st.scale) } := by
  simp [onResponderMove, hp, ht]

theorem move_applies_limits_before_axis_lock_witness :
    (onResponderMove resistanceProps overscrolledState diagonalPanGesture false).1
      = updateTransform resistanceProps overscrolledState
          { translateX := some (overscrolledState.translateX
              + (axisLock (limitDelta resistanceProps overscrolledState
                  (rawDelta diagonalPanGesture))).1 / overscrolledState.scale),
            translateY := some (overscrolledState.translateY
              + (axisLock (limitDelta resistanceProps overscrolledState
                  (rawDelta diagonalPanGesture))).2 / overscrolledState.scale) } :=
  move_applies_limits_before_axis_lock resistanceProps overscrolledState diagonalPanGesture
    (by decide) rfl

/-- Claim C6: `drawingScalarToScreenScalar` multiplies by the long side of
the transformed content rect while `screenScalarToDrawingScalar` divides by
`svgDrawingScale`; with `svgDrawingScale` consistent
(`= transformedRect.width / svgWidth`) their composition is
`s · max(width, height) · svgWidth / width`, not the identity — witnessed
concretely on a 100 × 200 transformed rect with a 2000px-wide overlay,
where a screen scalar 1 round-trips to 4000. -/
theorem scalar_conversions_not_inverse :
    (∀ (p : Props) (st : State) (s : ℚ),
      drawingScalarToScreenScalar p st s
        = s * max (transformedContentRect p st).width (transformedContentRect p st).height
      ∧ screenScalarToDrawingScalar p st s = s / st.svgDrawingScale) ∧
    (∀ (p : Props) (st : State) (s : ℚ),
      st.svgDrawingScale = (transformedContentRect p st).width / svgWidthVal p →
      screenScalarToDrawingScalar p st (drawingScalarToScreenScalar p st s)
        = s * max (transformedContentRect p st).width (transformedContentRect p st).height
            * svgWidthVal p / (transformedContentRect p st).width) ∧
    (tallViewState.svgDrawingScale
        = (transformedContentRect tallOverlayProps tallViewState).width
            / svgWidthVal tallOverlayProps
      ∧ screenScalarToDrawingScalar tallOverlayProps tallViewState
          (drawingScalarToScreenScalar tallOverlayProps tallViewState 1) ≠ 1) := by
  refine ⟨fun p st s => ⟨rfl, rfl⟩, fun p st s hds => ?_, ?_, ?_⟩
  · unfold screenScalarToDrawingScalar drawingScalarToScreenScalar
    rw [hds, div_div_eq_mul_div]
  · norm_num [tallViewState, testState, transformedContentRect, viewPortRect,
      currentTransform, transformedRect, aspectVal, tallOverlayProps, svgWidthVal, Rect.width]
  · norm_num [screenScalarToDrawingScalar, drawingScalarToScreenScalar,
      transformedContentRect, viewPortRect, currentTransform, transformedRect, aspectVal,
      tallOverlayProps, tallViewState, testState, Rect.width, Rect.height, max_def]

theorem scalar_conversions_not_inverse_witness :
    screenScalarToDrawingScalar tallOverlayProps tallViewState
        (drawingScalarToScreenScalar tallOverlayProps tallViewState 1)
      = 1 * max (transformedContentRect tallOverlayProps tallViewState).width
            (transformedContentRect tallOverlayProps tallViewState).height
          * svgWidthVal tallOverlayProps
          / (transformedContentRect tallOverlayProps tallViewState).width :=
  scalar_conversions_not_inverse.2.1 tallOverlayProps tallViewState 1
    (by norm_num [tallViewState, testState, transformedContentRect, viewPortRect,
      currentTransform, transformedRect, aspectVal, tallOverlayProps, svgWidthVal, Rect.width])

/-- Claim C7, counterexample: with a 2000 × 1000 overlay over a 100 × 100
transformed content rect (drawing scale consistent, `100 / 2000`), the
image-center coordinate `(1/2, 1/2)` maps to the screen point `(50, 25)` —
strictly inside the transformed content rect — but maps back to
`(1/2, 1/4)`, not to itself: the round trip distorts `y` whenever the
overlay's aspect ratio differs from the transformed rect's. -/
theorem coordinate_round_trip_fails :
    squareViewState.svgDrawingScale
      = (transformedContentRect wideOverlayProps squareViewState).width
          / svgWidthVal wideOverlayProps ∧
    coordinateToScreenPoint wideOverlayProps squareViewState { x := 1 / 2, y := 1 / 2 }
      = { x := 50, y := 25 } ∧
    (transformedContentRect wideOverlayProps squareViewState).left < 50 ∧
    (50 : ℚ) < (transformedContentRect wideOverlayProps squareViewState).right ∧
    (transformedContentRect wideOverlayProps squareViewState).top < 25 ∧
    (25 : ℚ) < (transformedContentRect wideOverlayProps squareViewState).bottom ∧
    screenPointToCoordinate wideOverlayProps squareViewState
        (coordinateToScreenPoint wideOverlayProps squareViewState { x := 1 / 2, y := 1 / 2 })
      = { x := 1 / 2, y := 1 / 4 } ∧
    ({ x := 1 / 2, y := 1 / 4 } : Point) ≠ { x := 1 / 2, y := 1 / 2 } := by
  norm_num [coordinateToScreenPoint, screenPointToCoordinate, drawingPointToScreenPoint,
    coordinateToDrawingPoint, hasSvgRect, svgWidthVal, svgHeightVal, wideOverlayProps,
    squareViewState, testState, transformedContentRect, viewPortRect, currentTransform,
    transformedRect, aspectVal, Rect.width, Rect.height, Point.mk.injEq]

/-- Claim C7 as amended: with an overlay configured and `svgDrawingScale`
consistent with the current transformed content rect, the round trip
`screenPointToCoordinate ∘ coordinateToScreenPoint` returns the `x`
coordinate exactly and multiplies the `y` coordinate by
`svgHeight · width / (svgWidth · height)` of the transformed rect; it is
the identity precisely on configurations where the overlay's aspect ratio
matches the transformed rect's (`svgHeight · width = svgWidth · height`),
and not in general. -/
theorem coordinate_round_trip (p : Props) (st : State) (coord : Point)
    (ho : hasSvgRect p = true)
    (hds : st.svgDrawingScale = (transformedContentRect p st).width / svgWidthVal p)
    (hw : (transformedContentRect p st).width ≠ 0)
    (hh : (transformedContentRect p st).height ≠ 0)
    (hW : svgWidthVal p ≠ 0) :
    (screenPointToCoordinate p st (coordinateToScreenPoint p st coord)).x = coord.x ∧
    (screenPointToCoordinate p st (coordinateToScreenPoint p st coord)).y
      = coord.y * (svgHeightVal p * (transformedContentRect p st).width)
          / (svgWidthVal p * (transformedContentRect p st).height) ∧
    (svgHeightVal p * (transformedContentRect p st).width
        = svgWidthVal p * (transformedContentRect p st).height →
      screenPointToCoordinate p st (coordinateToScreenPoint p st coord) = coord) := by
  obtain ⟨cx, cy⟩ := coord
  have hx : (screenPointToCoordinate p st (coordinateToScreenPoint p st ⟨cx, cy⟩)).x = cx := by
    simp only [screenPointToCoordinate, coordinateToScreenPoint, drawingPointToScreenPoint,
      coordinateToDrawingPoint, ho, if_true, hds]
    field_simp
    ring
  have hy : (screenPointToCoordinate p st (coordinateToScreenPoint p st ⟨cx, cy⟩)).y
      = cy * (svgHeightVal p * (transformedContentRect p st).width)
          / (svgWidthVal p * (transformedContentRect p st).height) := by
    simp only [screenPointToCoordinate, coordinateToScreenPoint, drawingPointToScreenPoint,
      coordinateToDrawingPoint, ho, if_true, hds]
    field_simp
    ring
  refine ⟨hx, hy, fun hasp => ?_⟩
  have hy2 : (screenPointToCoordinate p st (coordinateToScreenPoint p st ⟨cx, cy⟩)).y = cy := by
    rw [hy, hasp, mul_div_assoc, div_self (mul_ne_zero hW hh), mul_one]
  calc screenPointToCoordinate p st (coordinateToScreenPoint p st ⟨cx, cy⟩)
      = ⟨(screenPointToCoordinate p st (coordinateToScreenPoint p st ⟨cx, cy⟩)).x,
         (screenPointToCoordinate p st (coordinateToScreenPoint p st ⟨cx, cy⟩)).y⟩ := rfl
    _ = ⟨cx, cy⟩ := by rw [hx, hy2]

/-- Witness for C7 as amended: a 2000 × 3000 overlay over a 300 × 450
transformed rect (matching aspect ratios) round-trips `(1/4, 1/3)`
exactly. -/
theorem coordinate_round_trip_witness :
    screenPointToCoordinate tallOverlayProps portraitViewState
        (coordinateToScreenPoint tallOverlayProps portraitViewState { x := 1 / 4, y := 1 / 3 })
      = { x := 1 / 4, y := 1 / 3 } :=
  (coordinate_round_trip tallOverlayProps portraitViewState { x := 1 / 4, y := 1 / 3 }
    (by decide)
    (by norm_num [portraitViewState, testState, transformedContentRect, viewPortRect,
      currentTransform, transformedRect, aspectVal, tallOverlayProps, svgWidthVal, Rect.width])
    (by norm_num [portraitViewState, testState, transformedContentRect, viewPortRect,
      currentTransform, transformedRect, aspectVal, tallOverlayProps, Rect.width])
    (by norm_num [portraitViewState, testState, transformedContentRect, viewPortRect,
      currentTransform, transformedRect, aspectVal, tallOverlayProps, Rect.height])
    (by norm_num [tallOverlayProps, svgWidthVal])).2.2
    (by norm_num [portraitViewState, testState, transformedContentRect, viewPortRect,
      currentTransform, transformedRect, aspectVal, tallOverlayProps, svgWidthVal,
      svgHeightVal, Rect.width, Rect.height])

/-- Claim C10: `screenPointToDrawingPoint` and `screenScalarToDrawingScalar`
divide by the state field `svgDrawingScale` with no zero guard;
`svgDrawingScale` starts at 0 (for every props configuration), and when no
overlay is configured `updateSvgTransform` returns early, so every
reachable state still has `svgDrawingScale = 0` and both conversions divide
by zero on every input in that configuration. -/
theorem no_overlay_divides_by_zero (p : Props) (st : State)
    (h : hasSvgRect p = false) (hr : Reach p st) :
    st.svgDrawingScale = 0 ∧
    (∀ q : Point, screenPointToDrawingPoint p st q
        = { x := (q.x - (transformedContentRect p st).left) / st.svgDrawingScale,
            y := (q.y - (transformedContentRect p st).top) / st.svgDrawingScale }) ∧
    (∀ s : ℚ, screenScalarToDrawingScalar p st s = s / st.svgDrawingScale) ∧
    (∀ p' : Props, (initialState p').svgDrawingScale = 0) :=
  ⟨reach_svgDrawingScale_zero p st h hr, fun _ => rfl, fun _ => rfl, fun _ => rfl⟩

theorem no_overlay_divides_by_zero_witness :
    hasSvgRect defaultProps = false ∧
    (initialState defaultProps).svgDrawingScale = 0 :=
  ⟨by decide, (no_overlay_divides_by_zero defaultProps (initialState defaultProps)
    (by decide) Reach.init).1⟩

end ViewTransformer
